import Mathlib

/-!
Verification of the iris-classifier service (training pipeline, model
wrapper, response formatting and HTTP serving layer) against its
natural-language specification.  Python values are embedded shallowly:
numbers as rationals, numpy/Python scalar types as tagged constructors,
fallible operations as `Option`/`Except`, and the process-wide server
state as an explicit record threaded through the handlers.
-/

namespace Iris

/-! ## Embedding of Python/numpy values (utils.py)

`convert_numpy_to_python` walks arbitrary Python objects, so the value
domain distinguishes numpy scalars and arrays from native Python
scalars, lists and dicts. -/

/-- A Python runtime value as `utils.convert_numpy_to_python` can meet it:
numpy arrays and scalars, native scalars, dicts keyed by strings, lists. -/
inductive PyVal where
  | npArray (elems : List PyVal)
  | npInt (n : Int)
  | npFloat (q : ℚ)
  | pyInt (n : Int)
  | pyFloat (q : ℚ)
  | pyStr (s : String)
  | pyBool (b : Bool)
  | pyNone
  | dict (entries : List (String × PyVal))
  | list (elems : List PyVal)

/-- Semantics of `numpy.ndarray.tolist` applied to one array element:
a nested array becomes a nested Python list, numpy numeric scalars become
the corresponding native scalars, and any other object (as stored in an
object-dtype array) is returned as-is, unconverted. -/
def PyVal.tolistElem : PyVal → PyVal
  | .npArray es => .list (es.attach.map (fun e => PyVal.tolistElem e.1))
  | .npInt n => .pyInt n
  | .npFloat q => .pyFloat q
  | v => v
decreasing_by
  have := List.sizeOf_lt_of_mem e.2
  simp at *
  omega

/-- Embedding of `utils.convert_numpy_to_python`: an ndarray is converted
via `tolist`, numpy scalars via `int`/`float`, dicts and lists are rebuilt
with converted members, and anything else is returned unchanged. -/
def convert_numpy_to_python : PyVal → PyVal
  | .npArray es => .list (es.map PyVal.tolistElem)
  | .npInt n => .pyInt n
  | .npFloat q => .pyFloat q
  | .dict entries => .dict (entries.attach.map (fun kv => (kv.1.1, convert_numpy_to_python kv.1.2)))
  | .list es => .list (es.attach.map (fun e => convert_numpy_to_python e.1))
  | v => v
decreasing_by
  · rcases kv with ⟨⟨k, w⟩, hkv⟩
    have := List.sizeOf_lt_of_mem hkv
    simp at *
    omega
  · have := List.sizeOf_lt_of_mem e.2
    simp at *
    omega

/-- An array element is purely numeric: a numpy or native int/float, or a
nested array of such elements (i.e. the array is not an object-dtype array
holding containers). -/
def PyVal.numericElem : PyVal → Bool
  | .npArray es => es.attach.all (fun e => PyVal.numericElem e.1)
  | .npInt _ => true
  | .npFloat _ => true
  | .pyInt _ => true
  | .pyFloat _ => true
  | _ => false
decreasing_by
  have := List.sizeOf_lt_of_mem e.2
  simp at *
  omega

/-- Every numpy array occurring in the value holds only numeric elements
(no object-dtype array of containers). -/
def PyVal.numericOnlyArrays : PyVal → Bool
  | .npArray es => es.all PyVal.numericElem
  | .dict entries => entries.attach.all (fun kv => PyVal.numericOnlyArrays kv.1.2)
  | .list es => es.attach.all (fun e => PyVal.numericOnlyArrays e.1)
  | _ => true
decreasing_by
  · rcases kv with ⟨⟨k, w⟩, hkv⟩
    have := List.sizeOf_lt_of_mem hkv
    simp at *
    omega
  · have := List.sizeOf_lt_of_mem e.2
    simp at *
    omega

/-- The value contains no numpy array or numpy scalar anywhere. -/
def PyVal.npFree : PyVal → Bool
  | .npArray _ => false
  | .npInt _ => false
  | .npFloat _ => false
  | .dict entries => entries.attach.all (fun kv => PyVal.npFree kv.1.2)
  | .list es => es.attach.all (fun e => PyVal.npFree e.1)
  | _ => true
decreasing_by
  · rcases kv with ⟨⟨k, w⟩, hkv⟩
    have := List.sizeOf_lt_of_mem hkv
    simp at *
    omega
  · have := List.sizeOf_lt_of_mem e.2
    simp at *
    omega

/-! ## Response formatting (utils.py) -/

/-- Fixed, ordered class names of `IrisClassifier.CLASS_NAMES`. -/
def CLASS_NAMES : List String := ["setosa", "versicolor", "virginica"]

/-- Shape of the formatted prediction (the dict built by
`format_prediction_response`, also the serving layer's response model). -/
structure PredictionResponse where
  prediction : String
  prediction_index : Nat
  confidence : ℚ
  probabilities : List (String × ℚ)
deriving DecidableEq

/-- Embedding of `utils.format_prediction_response`.  The Python body
indexes `class_names[prediction]` and `probabilities[prediction]`; an
out-of-range index raises, which the embedding reports as `none`.
`zip(class_names, probabilities)` builds the probability mapping. -/
def format_prediction_response (prediction : Nat) (probabilities : List ℚ)
    (class_names : List String) : Option PredictionResponse :=
  match class_names[prediction]?, probabilities[prediction]? with
  | some name, some conf =>
      some { prediction := name
             prediction_index := prediction
             confidence := conf
             probabilities := class_names.zip probabilities }
  | _, _ => none

/-! ## Model embedding (model.py)

model.py wraps an sklearn `RandomForestClassifier`.  The fitted forest is
embedded as concrete data: a list of decision trees whose leaves hold the
per-class sample counts.  sklearn's tree prediction descends by comparing
the split feature against the threshold (left on `value <= threshold`) and
normalises the reached leaf's counts; the forest's `predict_proba`
averages the per-tree probabilities and `predict` takes the arg-max row
index (`classes_` is `[0, 1, 2]` for the iris data). -/

/-- One fitted decision tree of the forest. -/
inductive DTree where
  | leaf (counts : List ℚ)
  | node (feature : Nat) (threshold : ℚ) (left : DTree) (right : DTree)
deriving DecidableEq

/-- Probability row a single tree assigns to one sample: descend to a leaf
and normalise its per-class counts. -/
def DTree.probaRow (t : DTree) (x : List ℚ) : List ℚ :=
  match t with
  | .leaf counts => counts.map (fun c => c / counts.sum)
  | .node f thr l r => if x.getD f 0 ≤ thr then l.probaRow x else r.probaRow x

/-- Well-formed fitted tree: every leaf carries one count per class (3)
with positive total (sklearn leaves hold at least one sample). -/
def DTree.wf : DTree → Bool
  | .leaf counts => counts.length == 3 && decide (0 < counts.sum)
  | .node _ _ l r => l.wf && r.wf

/-- The fitted forest. -/
structure RandomForestClassifier where
  estimators : List DTree
deriving DecidableEq

/-- Componentwise sum of two probability rows. -/
def vecAdd (a b : List ℚ) : List ℚ := List.zipWith (fun u v => u + v) a b

/-- Forest probability row for one sample: accumulate the per-tree rows
starting from the zero row and divide by the number of estimators. -/
def RandomForestClassifier.probaRow (m : RandomForestClassifier) (x : List ℚ) : List ℚ :=
  (m.estimators.foldl (fun acc t => vecAdd acc (t.probaRow x)) (List.replicate 3 0)).map
    (fun v => v / (m.estimators.length : ℚ))

/-- Index of the first maximal entry (semantics of `numpy.argmax`); 0 on
the empty list. -/
def argmax : List ℚ → Nat
  | [] => 0
  | [_] => 0
  | a :: b :: rest =>
      if a < listMax (b :: rest) then argmax (b :: rest) + 1 else 0
where
  /-- Maximum entry of the list (0 on the empty list). -/
  listMax : List ℚ → ℚ
    | [] => 0
    | [a] => a
    | a :: b :: rest => max a (listMax (b :: rest))

/-- Forest class prediction for one sample: arg-max of the probability
row (sklearn's `predict` with `classes_ = [0, 1, 2]`). -/
def RandomForestClassifier.predictRow (m : RandomForestClassifier) (x : List ℚ) : Nat :=
  argmax (m.probaRow x)

/-- Well-formed fitted forest: at least one estimator, all trees
well-formed. -/
def RandomForestClassifier.wf (m : RandomForestClassifier) : Bool :=
  !m.estimators.isEmpty && m.estimators.all DTree.wf

/-- An error raised inside `IrisClassifier.predict`/`predict_proba`:
`untrained` is model.py's own `ValueError` on an untrained model;
`invalidInput` is the `ValueError` sklearn's input validation raises on
a batch with no samples (serve.py builds `np.array([])` — a 1-D,
shape-(0,) array — for an empty feature list, which `check_array`
rejects before any prediction). -/
inductive ModelError where
  | untrained
  | invalidInput
deriving DecidableEq

/-- Embedding of `IrisClassifier`: the wrapped sklearn model, the stored
random seed and the trained flag. -/
structure IrisClassifier where
  model : RandomForestClassifier
  random_state : Int
  is_trained : Bool
deriving DecidableEq

/-- Embedding of `IrisClassifier.__init__`: holds a fresh (unfitted)
sklearn model and starts with the trained flag unset. -/
def IrisClassifier.init (fresh : RandomForestClassifier) (random_state : Int) : IrisClassifier :=
  { model := fresh, random_state := random_state, is_trained := false }

/-- Embedding of `IrisClassifier.train`: `self.model.fit(...)` replaces the
fitted state (the outcome of the external fit is the argument `fitted`) and
the trained flag is set; there is no already-trained check, so refitting
overwrites. -/
def IrisClassifier.train (c : IrisClassifier) (fitted : RandomForestClassifier) : IrisClassifier :=
  { c with model := fitted, is_trained := true }

/-- Embedding of `IrisClassifier.predict`: raises when untrained, else
delegates to the wrapped sklearn model, whose input validation rejects
an empty batch (0 samples) before predicting; on a nonempty batch it
predicts each row. -/
def IrisClassifier.predict (c : IrisClassifier) (X : List (List ℚ)) :
    Except ModelError (List Nat) :=
  if c.is_trained then
    if X = [] then .error .invalidInput
    else .ok (X.map c.model.predictRow)
  else .error .untrained

/-- Embedding of `IrisClassifier.predict_proba`: raises when untrained,
else delegates to the wrapped sklearn model, whose input validation
rejects an empty batch (0 samples) before predicting; on a nonempty
batch it scores each row. -/
def IrisClassifier.predict_proba (c : IrisClassifier) (X : List (List ℚ)) :
    Except ModelError (List (List ℚ)) :=
  if c.is_trained then
    if X = [] then .error .invalidInput
    else .ok (X.map c.model.probaRow)
  else .error .untrained

/-- Embedding of `IrisClassifier.save`: raises when untrained, else
`joblib.dump(self, filepath)` serialises the full object graph; the
serialised artifact is the object graph itself. -/
def IrisClassifier.save (c : IrisClassifier) : Except ModelError IrisClassifier :=
  if c.is_trained then .ok c else .error .untrained

/-- Error on reading a model artifact from storage. -/
inductive LoadError where
  | fileNotFound
  | decodeError
deriving DecidableEq

/-- Contents of the model file on disk: absent, present but undecodable,
or a decodable serialised artifact. -/
inductive DiskFile where
  | missing
  | corrupt
  | artifact (c : IrisClassifier)
deriving DecidableEq

/-- Embedding of `IrisClassifier.load` (`joblib.load`): errors when the
file is absent or cannot be decoded, else yields the stored object. -/
def IrisClassifier.load : DiskFile → Except LoadError IrisClassifier
  | .missing => .error .fileNotFound
  | .corrupt => .error .decodeError
  | .artifact c => .ok c

/-! ## Serving layer (serve.py) -/

/-- A request body for `/predict` as it reaches pydantic validation: each
of the four fields may be absent. -/
structure RawFeatures where
  sepal_length : Option ℚ
  sepal_width : Option ℚ
  petal_length : Option ℚ
  petal_width : Option ℚ
deriving DecidableEq

/-- A validated `IrisFeatures` record (all four fields present and
non-negative, per the `Field(..., ge=0)` constraints). -/
structure IrisFeatures where
  sepal_length : ℚ
  sepal_width : ℚ
  petal_length : ℚ
  petal_width : ℚ
deriving DecidableEq

/-- Feature row in the order serve.py builds the numpy input. -/
def IrisFeatures.toRow (f : IrisFeatures) : List ℚ :=
  [f.sepal_length, f.sepal_width, f.petal_length, f.petal_width]

/-- Pydantic validation of one request body: every field required
(`...`) and constrained `ge=0`; any violation is a 422 validation
error, modelled as `none`. -/
def validateFeatures (r : RawFeatures) : Option IrisFeatures :=
  match r.sepal_length, r.sepal_width, r.petal_length, r.petal_width with
  | some sl, some sw, some pl, some pw =>
      if 0 ≤ sl ∧ 0 ≤ sw ∧ 0 ≤ pl ∧ 0 ≤ pw then
        some { sepal_length := sl, sepal_width := sw, petal_length := pl, petal_width := pw }
      else none
  | _, _, _, _ => none

/-- Framework validation of a batch body: every element must validate;
any failure rejects the whole request with 422. -/
def validateAll : List RawFeatures → Option (List IrisFeatures)
  | [] => some []
  | r :: rs =>
      match validateFeatures r, validateAll rs with
      | some f, some fs => some (f :: fs)
      | _, _ => none

/-- The process-wide serving state: the global `model` reference
(`None` until a successful startup load). -/
structure ServerState where
  model : Option IrisClassifier
deriving DecidableEq

/-- An HTTP reply: a 200 body or an error status (an `HTTPException`
raised by the handler, or the framework's 422 validation reply). -/
inductive Reply (α : Type) where
  | ok (body : α)
  | failure (status : Nat)
deriving DecidableEq

/-- HTTP status of a reply. -/
def Reply.statusOf {α : Type} : Reply α → Nat
  | .ok _ => 200
  | .failure s => s

namespace Serve

/-- Embedding of serve.py's startup hook `load_model`: a missing file is
logged and the global stays `None`; a load exception is caught and the
global stays `None`; otherwise the loaded artifact is installed. -/
def load_model (disk : DiskFile) : ServerState :=
  match disk with
  | .missing => { model := none }
  | d =>
      match IrisClassifier.load d with
      | .ok c => { model := some c }
      | .error _ => { model := none }

/-- Body of the `/health` reply. -/
structure HealthResponse where
  status : String
  model_loaded : Bool
  model_path : String
deriving DecidableEq

/-- Embedding of the `/health` handler. -/
def health (st : ServerState) (model_path : String) : HealthResponse :=
  { status := (if st.model.isSome then ("healthy") else ("unhealthy"))
    model_loaded := st.model.isSome
    model_path := model_path }

/-- Embedding of the `/predict` handler, framework validation included:
422 on invalid body, 503 when the global model is `None`, then the
try-block around inference and formatting with every exception answered
as 500. -/
def predict (st : ServerState) (raw : RawFeatures) : Reply PredictionResponse :=
  match validateFeatures raw with
  | none => .failure 422
  | some features =>
      match st.model with
      | none => .failure 503
      | some m =>
          let X := [features.toRow]
          match m.predict X, m.predict_proba X with
          | .ok preds, .ok probas =>
              match preds[0]?, probas[0]? with
              | some pred, some probs =>
                  match format_prediction_response pred probs CLASS_NAMES with
                  | some r => .ok r
                  | none => .failure 500
              | _, _ => .failure 500
          | _, _ => .failure 500

/-- Formatting of the batch results: the zipped prediction/probability
pairs are formatted in order; a formatting exception fails the whole
try-block (answered as 500). -/
def formatAll : List (Nat × List ℚ) → Option (List PredictionResponse)
  | [] => some []
  | (pred, probs) :: rest =>
      match format_prediction_response pred probs CLASS_NAMES, formatAll rest with
      | some r, some rs => some (r :: rs)
      | _, _ => none

/-- Embedding of the `/predict/batch` handler, framework validation
included: 422 when any element of the body is invalid, 503 when the
global model is `None`, then the try-block around batch inference and
per-element formatting with every exception answered as 500. -/
def predict_batch (st : ServerState) (raws : List RawFeatures) :
    Reply (List PredictionResponse) :=
  match validateAll raws with
  | none => .failure 422
  | some features_list =>
      match st.model with
      | none => .failure 503
      | some m =>
          let X := features_list.map IrisFeatures.toRow
          match m.predict X, m.predict_proba X with
          | .ok preds, .ok probas =>
              match formatAll (preds.zip probas) with
              | some results => .ok results
              | none => .failure 500
          | _, _ => .failure 500

/-- A request the running service can receive. -/
inductive Request where
  | root
  | health
  | predictOne (raw : RawFeatures)
  | predictBatch (raws : List RawFeatures)

/-- Dispatch of one request: every handler reads the process state and
returns it untouched together with the reply status (no handler assigns
the global model reference). -/
def handleRequest (st : ServerState) (q : Request) : ServerState × Nat :=
  match q with
  | .root => (st, 200)
  | .health => (st, 200)
  | .predictOne raw => (st, (predict st raw).statusOf)
  | .predictBatch raws => (st, (predict_batch st raws).statusOf)

/-- The serving process: startup load, then any sequence of requests;
yields the final process state. -/
def run (disk : DiskFile) (qs : List Request) : ServerState :=
  qs.foldl (fun s q => (handleRequest s q).1) (load_model disk)

end Serve

/-! ## Training pipeline (train.py) -/

/-- Which pipeline steps succeed in a given run: the dataset load/split,
the external fit, the evaluation, and the two file writes.  Each models
the absence of an exception in the corresponding train.py step. -/
structure StepOutcomes where
  load_ok : Bool
  fit_ok : Bool
  eval_ok : Bool
  save_model_ok : Bool
  save_metrics_ok : Bool
deriving DecidableEq

/-- Environment of one training run: the step outcomes and the forest the
external fit produces when it succeeds. -/
structure PipelineEnv where
  outcomes : StepOutcomes
  fitted : RandomForestClassifier

/-- Durable storage as the pipeline leaves it: the model file and the
metrics file. -/
structure Storage where
  modelFile : Option IrisClassifier
  metricsWritten : Bool
deriving DecidableEq

/-- Exit status and storage after one run of the training entry point. -/
structure PipelineResult where
  exitCode : Nat
  storage : Storage
deriving DecidableEq

/-- Embedding of train.py (`train_model` under `main`'s try/except):
steps run in order — load/split, fit (which sets the trained flag),
evaluate, save the model file, save the metrics file — any exception
aborts the rest and `main` exits with status 1; only a full run exits
with status 0.  Writes happen only in the two final steps. -/
def train_model (env : PipelineEnv) : PipelineResult :=
  let empty : Storage := { modelFile := none, metricsWritten := false }
  if !env.outcomes.load_ok then { exitCode := 1, storage := empty }
  else if !env.outcomes.fit_ok then { exitCode := 1, storage := empty }
  else
    let classifier := (IrisClassifier.init { estimators := [] } 42).train env.fitted
    if !env.outcomes.eval_ok then { exitCode := 1, storage := empty }
    else if !env.outcomes.save_model_ok then { exitCode := 1, storage := empty }
    else
      match classifier.save with
      | .error _ => { exitCode := 1, storage := empty }
      | .ok artifact =>
          let written : Storage := { modelFile := some artifact, metricsWritten := false }
          if !env.outcomes.save_metrics_ok then { exitCode := 1, storage := written }
          else { exitCode := 0, storage := { written with metricsWritten := true } }

/-! ## Concrete fixtures (defaults for `getD`, witnesses) -/

/-- Default raw request used only as the `getD` fallback. -/
def dummyRaw : RawFeatures :=
  { sepal_length := none, sepal_width := none, petal_length := none, petal_width := none }

/-- Default feature record used only as the `getD` fallback. -/
def dummyFeatures : IrisFeatures :=
  { sepal_length := 0, sepal_width := 0, petal_length := 0, petal_width := 0 }

/-- Default response record used only as the `getD` fallback. -/
def dummyResponse : PredictionResponse :=
  { prediction := (""), prediction_index := 0, confidence := 0, probabilities := [] }

/-- A small concrete fitted forest: one tree, one pure-setosa leaf. -/
def testForest : RandomForestClassifier :=
  { estimators := [.leaf [1, 0, 0]] }

/-- A concrete trained classifier. -/
def testClassifier : IrisClassifier :=
  { model := testForest, random_state := 42, is_trained := true }

/-- A serving state with the concrete classifier installed. -/
def testState : ServerState := { model := some testClassifier }

/-- A concrete valid raw request. -/
def testRaw1 : RawFeatures :=
  { sepal_length := some 5, sepal_width := some 3, petal_length := some 1, petal_width := some 0 }

/-- A second concrete valid raw request. -/
def testRaw2 : RawFeatures :=
  { sepal_length := some 6, sepal_width := some 2, petal_length := some 4, petal_width := some 1 }

/-- The validated form of `testRaw1`. -/
def testFeatures1 : IrisFeatures :=
  { sepal_length := 5, sepal_width := 3, petal_length := 1, petal_width := 0 }

/-- The validated form of `testRaw2`. -/
def testFeatures2 : IrisFeatures :=
  { sepal_length := 6, sepal_width := 2, petal_length := 4, petal_width := 1 }

/-! ## Helper lemmas -/

/-- Helper: `all` over an attached list coincides with `all` over the list. -/
theorem list_attach_all {α : Type} (l : List α) (p : α → Bool) :
    (l.attach.all fun e => p e.1) = l.all p := by
  rw [Bool.eq_iff_iff, List.all_eq_true, List.all_eq_true]
  constructor
  · intro h x hx
    exact h ⟨x, hx⟩ (List.mem_attach l ⟨x, hx⟩)
  · intro h e _
    exact h e.1 e.2

/-- Unfolding: `tolist` of an array maps `tolistElem` over the elements. -/
theorem tolistElem_npArray (es : List PyVal) :
    (PyVal.npArray es).tolistElem = .list (es.map PyVal.tolistElem) := by
  rw [PyVal.tolistElem]
  exact congrArg PyVal.list (List.attach_map_val es PyVal.tolistElem)

/-- Unfolding: conversion of a dict rebuilds it with converted values. -/
theorem convert_dict (entries : List (String × PyVal)) :
    convert_numpy_to_python (.dict entries) =
      .dict (entries.map (fun kv => (kv.1, convert_numpy_to_python kv.2))) := by
  rw [convert_numpy_to_python]
  exact congrArg PyVal.dict
    (List.attach_map_val entries (fun kv => (kv.1, convert_numpy_to_python kv.2)))

/-- Unfolding: conversion of a list maps the conversion over the elements. -/
theorem convert_list (es : List PyVal) :
    convert_numpy_to_python (.list es) = .list (es.map convert_numpy_to_python) := by
  rw [convert_numpy_to_python]
  exact congrArg PyVal.list (List.attach_map_val es convert_numpy_to_python)

/-- Unfolding: `npFree` of a dict checks all values. -/
theorem npFree_dict (entries : List (String × PyVal)) :
    (PyVal.dict entries).npFree = entries.all (fun kv => kv.2.npFree) := by
  rw [PyVal.npFree]
  exact list_attach_all entries (fun kv => kv.2.npFree)

/-- Unfolding: `npFree` of a list checks all elements. -/
theorem npFree_list (es : List PyVal) :
    (PyVal.list es).npFree = es.all PyVal.npFree := by
  rw [PyVal.npFree]
  exact list_attach_all es PyVal.npFree

/-- Unfolding: `numericElem` of an array checks all elements. -/
theorem numericElem_npArray (es : List PyVal) :
    (PyVal.npArray es).numericElem = es.all PyVal.numericElem := by
  rw [PyVal.numericElem]
  exact list_attach_all es PyVal.numericElem

/-- Unfolding: `numericOnlyArrays` of a dict checks all values. -/
theorem numericOnlyArrays_dict (entries : List (String × PyVal)) :
    (PyVal.dict entries).numericOnlyArrays = entries.all (fun kv => kv.2.numericOnlyArrays) := by
  rw [PyVal.numericOnlyArrays]
  exact list_attach_all entries (fun kv => kv.2.numericOnlyArrays)

/-- Unfolding: `numericOnlyArrays` of a list checks all elements. -/
theorem numericOnlyArrays_list (es : List PyVal) :
    (PyVal.list es).numericOnlyArrays = es.all PyVal.numericOnlyArrays := by
  rw [PyVal.numericOnlyArrays]
  exact list_attach_all es PyVal.numericOnlyArrays

/-- Conversion fixes every numpy-free value. -/
theorem convert_of_npFree (v : PyVal) (h : v.npFree = true) :
    convert_numpy_to_python v = v := by
  induction v using convert_numpy_to_python.induct with
  | case1 es => rw [PyVal.npFree] at h; exact absurd h (by simp)
  | case2 n => rw [PyVal.npFree] at h; exact absurd h (by simp)
  | case3 q => rw [PyVal.npFree] at h; exact absurd h (by simp)
  | case4 entries ih =>
      rw [npFree_dict, List.all_eq_true] at h
      rw [convert_dict]
      refine congrArg PyVal.dict ?_
      calc entries.map (fun kv => (kv.1, convert_numpy_to_python kv.2))
          = entries.map id := by
            refine List.map_congr_left ?_
            intro kv hkv
            rw [ih ⟨kv, hkv⟩ (h kv hkv)]
            rfl
        _ = entries := List.map_id entries
  | case5 es ih =>
      rw [npFree_list, List.all_eq_true] at h
      rw [convert_list]
      refine congrArg PyVal.list ?_
      calc es.map convert_numpy_to_python
          = es.map id := by
            refine List.map_congr_left ?_
            intro e he
            rw [ih ⟨e, he⟩ (h e he)]
            rfl
        _ = es := List.map_id es
  | case6 v h1 h2 h3 h4 h5 =>
      cases v with
      | npArray es => exact absurd rfl (h1 es)
      | npInt n => exact absurd rfl (h2 n)
      | npFloat q => exact absurd rfl (h3 q)
      | dict entries => exact absurd rfl (h4 entries)
      | list es => exact absurd rfl (h5 es)
      | pyInt n => simp [convert_numpy_to_python]
      | pyFloat q => simp [convert_numpy_to_python]
      | pyStr s => simp [convert_numpy_to_python]
      | pyBool b => simp [convert_numpy_to_python]
      | pyNone => simp [convert_numpy_to_python]

/-- `tolist` of a numeric array element yields a numpy-free value. -/
theorem tolistElem_npFree_of_numericElem (e : PyVal) (h : e.numericElem = true) :
    e.tolistElem.npFree = true := by
  induction e using PyVal.tolistElem.induct with
  | case1 es ih =>
      rw [numericElem_npArray, List.all_eq_true] at h
      rw [tolistElem_npArray, npFree_list, List.all_eq_true]
      intro w hw
      rw [List.mem_map] at hw
      obtain ⟨u, hu, rfl⟩ := hw
      exact ih ⟨u, hu⟩ (h u hu)
  | case2 n => simp [PyVal.tolistElem, PyVal.npFree]
  | case3 q => simp [PyVal.tolistElem, PyVal.npFree]
  | case4 v h1 h2 h3 =>
      cases v with
      | npArray es => exact absurd rfl (h1 es)
      | npInt n => exact absurd rfl (h2 n)
      | npFloat q => exact absurd rfl (h3 q)
      | pyInt n => simp [PyVal.tolistElem, PyVal.npFree]
      | pyFloat q => simp [PyVal.tolistElem, PyVal.npFree]
      | pyStr s => exact absurd h (by simp [PyVal.numericElem])
      | pyBool b => exact absurd h (by simp [PyVal.numericElem])
      | pyNone => exact absurd h (by simp [PyVal.numericElem])
      | dict entries => exact absurd h (by simp [PyVal.numericElem])
      | list es => exact absurd h (by simp [PyVal.numericElem])

/-- Conversion of a value whose arrays are numeric yields a numpy-free
value. -/
theorem convert_npFree_of_numericOnlyArrays (v : PyVal) (h : v.numericOnlyArrays = true) :
    (convert_numpy_to_python v).npFree = true := by
  induction v using convert_numpy_to_python.induct with
  | case1 es =>
      rw [PyVal.numericOnlyArrays, List.all_eq_true] at h
      rw [convert_numpy_to_python, npFree_list, List.all_eq_true]
      intro w hw
      rw [List.mem_map] at hw
      obtain ⟨u, hu, rfl⟩ := hw
      exact tolistElem_npFree_of_numericElem u (h u hu)
  | case2 n => simp [convert_numpy_to_python, PyVal.npFree]
  | case3 q => simp [convert_numpy_to_python, PyVal.npFree]
  | case4 entries ih =>
      rw [numericOnlyArrays_dict, List.all_eq_true] at h
      rw [convert_dict, npFree_dict, List.all_eq_true]
      intro kv hkv
      rw [List.mem_map] at hkv
      obtain ⟨u, hu, rfl⟩ := hkv
      exact ih ⟨u, hu⟩ (h u hu)
  | case5 es ih =>
      rw [numericOnlyArrays_list, List.all_eq_true] at h
      rw [convert_list, npFree_list, List.all_eq_true]
      intro w hw
      rw [List.mem_map] at hw
      obtain ⟨u, hu, rfl⟩ := hw
      exact ih ⟨u, hu⟩ (h u hu)
  | case6 v h1 h2 h3 h4 h5 =>
      cases v with
      | npArray es => exact absurd rfl (h1 es)
      | npInt n => exact absurd rfl (h2 n)
      | npFloat q => exact absurd rfl (h3 q)
      | dict entries => exact absurd rfl (h4 entries)
      | list es => exact absurd rfl (h5 es)
      | pyInt n => simp [convert_numpy_to_python, PyVal.npFree]
      | pyFloat q => simp [convert_numpy_to_python, PyVal.npFree]
      | pyStr s => simp [convert_numpy_to_python, PyVal.npFree]
      | pyBool b => simp [convert_numpy_to_python, PyVal.npFree]
      | pyNone => simp [convert_numpy_to_python, PyVal.npFree]

/-- Totality and shape of `format_prediction_response` on its stated
domain (shared helper behind the claim theorems). -/
theorem format_total (i : Nat) (p : List ℚ) (hi : i < 3) (hp : p.length = 3) :
    ∃ r, format_prediction_response i p CLASS_NAMES = some r ∧
      r.prediction = CLASS_NAMES.getD i ("") ∧
      r.prediction_index = i ∧
      r.confidence = p.getD i 0 ∧
      r.probabilities.length = 3 ∧
      ∀ j, j < 3 → r.probabilities.getD j (("") , 0) = (CLASS_NAMES.getD j (""), p.getD j 0) := by
  obtain ⟨a, b, c, rfl⟩ := List.length_eq_three.mp hp
  interval_cases i <;>
    refine ⟨_, rfl, ?_⟩ <;>
    · refine ⟨rfl, rfl, rfl, rfl, ?_⟩
      intro j hj
      interval_cases j <;> rfl

/-! ## Claim theorems -/

/-- C1.  `format_prediction_response` is pure and total on its stated
domain: for every predicted index below 3 and every probability vector of
length 3, it succeeds (no error path) and returns the record whose
`prediction` is the class name at the predicted index, whose
`prediction_index` is that index, whose `confidence` is the probability
at that index, and whose `probabilities` pairs the class name at each
position with the probability at the same position. -/
theorem format_prediction_response_total (i : Nat) (p : List ℚ)
    (hi : i < 3) (hp : p.length = 3) :
    ∃ r, format_prediction_response i p CLASS_NAMES = some r ∧
      r.prediction = CLASS_NAMES.getD i ("") ∧
      r.prediction_index = i ∧
      r.confidence = p.getD i 0 ∧
      r.probabilities.length = 3 ∧
      ∀ j, j < 3 → r.probabilities.getD j (("") , 0) = (CLASS_NAMES.getD j (""), p.getD j 0) :=
  format_total i p hi hp

/-- Witness for C1 at the concrete index 0 and probability vector
`[1, 0, 0]`. -/
theorem format_prediction_response_total_witness :
    ∃ r, format_prediction_response 0 [1, 0, 0] CLASS_NAMES = some r ∧
      r.prediction = CLASS_NAMES.getD 0 ("") ∧
      r.prediction_index = 0 ∧
      r.confidence = List.getD [1, 0, 0] 0 0 ∧
      r.probabilities.length = 3 ∧
      ∀ j, j < 3 → r.probabilities.getD j (("") , 0) =
        (CLASS_NAMES.getD j (""), List.getD [1, 0, 0] j 0) :=
  format_prediction_response_total 0 [1, 0, 0] (by decide) (by decide)

/-- C10 counterexample.  `convert_numpy_to_python` is not idempotent on
the object-dtype array holding a dict with a numpy integer value: the
first pass returns the array's elements as-is (per `ndarray.tolist` on
object dtype), the second pass then converts the numpy integer inside
the dict, so the two results differ. -/
theorem convert_not_idempotent_on_object_arrays :
    convert_numpy_to_python (convert_numpy_to_python
        (PyVal.npArray [PyVal.dict [(("a"), PyVal.npInt 1)]])) ≠
      convert_numpy_to_python (PyVal.npArray [PyVal.dict [(("a"), PyVal.npInt 1)]]) := by
  have h1 : convert_numpy_to_python (PyVal.npArray [PyVal.dict [(("a"), PyVal.npInt 1)]]) =
      PyVal.list [PyVal.dict [(("a"), PyVal.npInt 1)]] := by
    rw [convert_numpy_to_python]
    simp [PyVal.tolistElem]
  rw [h1, convert_list]
  simp [convert_dict, convert_numpy_to_python]

/-- C10 (amended).  `convert_numpy_to_python` is idempotent on every
value whose numpy arrays hold only numeric scalars and nested such
arrays (non-object arrays) — applying it twice then equals applying it
once — and it is structure-preserving on all inputs: a dict maps to a
dict with exactly the same keys and converted values in order, a list
maps to a list of converted elements in order (same length), an array
maps to a list of its `tolist`-converted elements in order (same
length), and non-numpy scalars are returned unchanged. -/
theorem convert_idempotent_amended (v : PyVal) (entries : List (String × PyVal))
    (es : List PyVal) (n : Int) (q : ℚ) (s : String) (b : Bool) :
    (v.numericOnlyArrays = true →
      convert_numpy_to_python (convert_numpy_to_python v) = convert_numpy_to_python v) ∧
    (convert_numpy_to_python (.dict entries) =
      .dict (entries.map (fun kv => (kv.1, convert_numpy_to_python kv.2)))) ∧
    ((entries.map (fun kv => (kv.1, convert_numpy_to_python kv.2))).map Prod.fst =
      entries.map Prod.fst) ∧
    (convert_numpy_to_python (.list es) = .list (es.map convert_numpy_to_python)) ∧
    ((es.map convert_numpy_to_python).length = es.length) ∧
    (convert_numpy_to_python (.npArray es) = .list (es.map PyVal.tolistElem)) ∧
    ((es.map PyVal.tolistElem).length = es.length) ∧
    (convert_numpy_to_python (.pyInt n) = .pyInt n) ∧
    (convert_numpy_to_python (.pyFloat q) = .pyFloat q) ∧
    (convert_numpy_to_python (.pyStr s) = .pyStr s) ∧
    (convert_numpy_to_python (.pyBool b) = .pyBool b) ∧
    (convert_numpy_to_python .pyNone = .pyNone) := by
  refine ⟨?_, convert_dict entries, ?_, convert_list es, List.length_map es _,
    ?_, List.length_map es _, ?_, ?_, ?_, ?_, ?_⟩
  · intro h
    exact convert_of_npFree _ (convert_npFree_of_numericOnlyArrays v h)
  · rw [List.map_map]
    rfl
  · rw [convert_numpy_to_python]
  · simp [convert_numpy_to_python]
  · simp [convert_numpy_to_python]
  · simp [convert_numpy_to_python]
  · simp [convert_numpy_to_python]
  · simp [convert_numpy_to_python]

/-- Summing a list divided elementwise equals dividing the sum. -/
theorem sum_map_div (l : List ℚ) (d : ℚ) :
    (l.map (fun c => c / d)).sum = l.sum / d := by
  induction l with
  | nil => simp
  | cons a as ih => simp [ih, add_div]

/-- A well-formed tree's probability row has one entry per class. -/
theorem DTree.probaRow_length (t : DTree) (x : List ℚ) (h : t.wf = true) :
    (t.probaRow x).length = 3 := by
  induction t with
  | leaf counts =>
      simp [DTree.wf] at h
      simp [DTree.probaRow, h.1]
  | node f thr l r ihl ihr =>
      simp [DTree.wf] at h
      rw [DTree.probaRow]
      split
      · exact ihl h.1
      · exact ihr h.2

/-- A well-formed tree's probability row sums to exactly 1. -/
theorem DTree.probaRow_sum (t : DTree) (x : List ℚ) (h : t.wf = true) :
    (t.probaRow x).sum = 1 := by
  induction t with
  | leaf counts =>
      simp [DTree.wf] at h
      rw [DTree.probaRow, sum_map_div]
      exact div_self (ne_of_gt h.2)
  | node f thr l r ihl ihr =>
      simp [DTree.wf] at h
      rw [DTree.probaRow]
      split
      · exact ihl h.1
      · exact ihr h.2

/-- Length of a componentwise sum. -/
theorem vecAdd_length (a b : List ℚ) :
    (vecAdd a b).length = min a.length b.length := by
  simp [vecAdd]

/-- Sum of a componentwise sum of equal-length rows. -/
theorem vecAdd_sum (a b : List ℚ) (h : a.length = b.length) :
    (vecAdd a b).sum = a.sum + b.sum := by
  induction a generalizing b with
  | nil =>
      cases b with
      | nil => simp [vecAdd]
      | cons y ys => simp at h
  | cons x xs ih =>
      cases b with
      | nil => simp at h
      | cons y ys =>
          simp at h
          rw [vecAdd] at *
          simp [List.zipWith_cons_cons]
          rw [← vecAdd, ih ys h]
          ring

/-- Accumulating the per-tree rows of well-formed trees keeps length 3
and adds 1 per tree to the total. -/
theorem forest_fold (x : List ℚ) (ts : List DTree) (hts : ∀ t ∈ ts, t.wf = true)
    (acc : List ℚ) (hacc : acc.length = 3) :
    (ts.foldl (fun a t => vecAdd a (t.probaRow x)) acc).length = 3 ∧
      (ts.foldl (fun a t => vecAdd a (t.probaRow x)) acc).sum = acc.sum + ts.length := by
  induction ts generalizing acc with
  | nil => simp [hacc]
  | cons t ts ih =>
      have hw : t.wf = true := hts t (List.mem_cons_self t ts)
      have hlen : (vecAdd acc (t.probaRow x)).length = 3 := by
        rw [vecAdd_length, hacc, DTree.probaRow_length t x hw]
        simp
      have hsum : (vecAdd acc (t.probaRow x)).sum = acc.sum + 1 := by
        rw [vecAdd_sum acc _ (by rw [hacc, DTree.probaRow_length t x hw]),
          DTree.probaRow_sum t x hw]
      obtain ⟨L, S⟩ := ih (fun u hu => hts u (List.mem_cons_of_mem t hu)) _ hlen
      refine ⟨L, ?_⟩
      rw [List.foldl_cons] at *
      rw [S, hsum]
      simp [List.length_cons]
      ring

/-- A well-formed forest's probability row has one entry per class. -/
theorem forest_probaRow_length (m : RandomForestClassifier) (x : List ℚ)
    (h : m.wf = true) : (m.probaRow x).length = 3 := by
  simp [RandomForestClassifier.wf] at h
  rw [RandomForestClassifier.probaRow, List.length_map]
  exact (forest_fold x m.estimators (by simpa [List.all_eq_true] using h.2)
    (List.replicate 3 0) (by simp)).1

/-- A well-formed forest's probability row sums to exactly 1. -/
theorem forest_probaRow_sum (m : RandomForestClassifier) (x : List ℚ)
    (h : m.wf = true) : (m.probaRow x).sum = 1 := by
  simp [RandomForestClassifier.wf] at h
  have hne : (m.estimators.length : ℚ) ≠ 0 := by
    have : m.estimators.length ≠ 0 := by
      simpa [List.length_eq_zero] using h.1
    exact_mod_cast this
  rw [RandomForestClassifier.probaRow, sum_map_div,
    (forest_fold x m.estimators (by simpa [List.all_eq_true] using h.2)
      (List.replicate 3 0) (by simp)).2]
  simp [div_self hne]

/-- The arg-max index of a nonempty list is a valid index. -/
theorem argmax_lt_length (l : List ℚ) (h : l ≠ []) : argmax l < l.length := by
  induction l with
  | nil => exact absurd rfl h
  | cons a rest ih =>
      cases rest with
      | nil => simp [argmax]
      | cons b rs =>
          rw [argmax]
          split
          · have := ih (by simp)
            simpa using Nat.succ_lt_succ this
          · simp

/-- A well-formed forest's predicted index is below the class count. -/
theorem predictRow_lt_three (m : RandomForestClassifier) (x : List ℚ) (h : m.wf = true) :
    m.predictRow x < 3 := by
  have h3 := forest_probaRow_length m x h
  have hne : m.probaRow x ≠ [] := by
    intro hnil
    rw [hnil] at h3
    simp at h3
  have := argmax_lt_length (m.probaRow x) hne
  rw [h3] at this
  exact this

/-- The concrete fixture forest is well-formed. -/
theorem testForest_wf : testForest.wf = true := by
  simp [testForest, RandomForestClassifier.wf, DTree.wf]

/-- C8.  On any feature vector given to a trained, well-formed
classifier, `predict_proba` succeeds with a row of length 3 summing to
exactly 1 (hence within the 1e-6 tolerance), and `predict` succeeds
with exactly the arg-max index of that row. -/
theorem proba_sum_one_and_argmax (c : IrisClassifier) (f : IrisFeatures)
    (ht : c.is_trained = true) (hw : c.model.wf = true) :
    ∃ row, c.predict_proba [f.toRow] = .ok [row] ∧
      row.length = 3 ∧
      row.sum = 1 ∧
      |row.sum - 1| ≤ 1 / 1000000 ∧
      c.predict [f.toRow] = .ok [argmax row] := by
  have hsum := forest_probaRow_sum c.model f.toRow hw
  refine ⟨c.model.probaRow f.toRow, ?_, forest_probaRow_length c.model f.toRow hw,
    hsum, ?_, ?_⟩
  · simp [IrisClassifier.predict_proba, ht]
  · rw [hsum]
    simp
  · simp [IrisClassifier.predict, ht, RandomForestClassifier.predictRow]

/-- Witness for C8 at the concrete trained classifier and the spec's
sample features. -/
theorem proba_sum_one_and_argmax_witness :
    ∃ row, testClassifier.predict_proba
        [(IrisFeatures.mk 5.1 3.5 1.4 0.2).toRow] = .ok [row] ∧
      row.length = 3 ∧
      row.sum = 1 ∧
      |row.sum - 1| ≤ 1 / 1000000 ∧
      testClassifier.predict [(IrisFeatures.mk 5.1 3.5 1.4 0.2).toRow] = .ok [argmax row] :=
  proba_sum_one_and_argmax testClassifier (IrisFeatures.mk 5.1 3.5 1.4 0.2) rfl testForest_wf

/-- C3.  `predict`, `predict_proba` and `save` fail with the
untrained-model error exactly when the trained flag is unset; after
`train` the flag is set, the three operations succeed, and calling
`train` again succeeds and overwrites the fitted state. -/
theorem untrained_error_iff (c : IrisClassifier) (X : List (List ℚ))
    (fitted : RandomForestClassifier) :
    ((c.predict X = .error .untrained) ↔ c.is_trained = false) ∧
    ((c.predict_proba X = .error .untrained) ↔ c.is_trained = false) ∧
    ((c.save = .error .untrained) ↔ c.is_trained = false) ∧
    ((c.train fitted).is_trained = true) ∧
    ((c.train fitted).predict X ≠ .error .untrained) ∧
    (X ≠ [] → (c.train fitted).predict X = .ok (X.map fitted.predictRow)) ∧
    ((c.train fitted).predict_proba X ≠ .error .untrained) ∧
    (X ≠ [] → (c.train fitted).predict_proba X = .ok (X.map fitted.probaRow)) ∧
    ((c.train fitted).save = .ok (c.train fitted)) ∧
    ((c.train fitted).model = fitted) := by
  by_cases hX : X = [] <;> cases hc : c.is_trained <;>
    simp [IrisClassifier.predict, IrisClassifier.predict_proba, IrisClassifier.save,
      IrisClassifier.train, hc, hX]

/-- C7.  Saving a trained classifier and loading the resulting artifact
yields a classifier whose `predict` output on any fixed input batch is
identical to the original's. -/
theorem save_load_roundtrip (c : IrisClassifier) (X : List (List ℚ))
    (ht : c.is_trained = true) :
    ∃ a, c.save = .ok a ∧
      IrisClassifier.load (.artifact a) = .ok c ∧
      ∀ loaded, IrisClassifier.load (.artifact a) = .ok loaded →
        loaded.predict X = c.predict X := by
  refine ⟨c, by simp [IrisClassifier.save, ht], rfl, ?_⟩
  intro loaded hl
  simp [IrisClassifier.load] at hl
  rw [hl]

/-- Witness for C7 at the concrete trained classifier and the spec's
sample input `[5.1, 3.5, 1.4, 0.2]`. -/
theorem save_load_roundtrip_witness :
    ∃ a, testClassifier.save = .ok a ∧
      IrisClassifier.load (.artifact a) = .ok testClassifier ∧
      ∀ loaded, IrisClassifier.load (.artifact a) = .ok loaded →
        loaded.predict [[5.1, 3.5, 1.4, 0.2]] = testClassifier.predict [[5.1, 3.5, 1.4, 0.2]] :=
  save_load_roundtrip testClassifier [[5.1, 3.5, 1.4, 0.2]] rfl

/-- A batch that validates has one validated record per raw request, in
order. -/
theorem validateAll_some (raws : List RawFeatures) (fs : List IrisFeatures)
    (h : validateAll raws = some fs) :
    fs.length = raws.length ∧
      ∀ i, i < raws.length →
        validateFeatures (raws.getD i dummyRaw) = some (fs.getD i dummyFeatures) := by
  induction raws generalizing fs with
  | nil =>
      simp [validateAll] at h
      subst h
      exact ⟨rfl, fun i hi => absurd hi (by simp)⟩
  | cons r rs ih =>
      cases hv : validateFeatures r with
      | none => simp [validateAll, hv] at h
      | some f =>
          cases hrest : validateAll rs with
          | none => simp [validateAll, hv, hrest] at h
          | some gs =>
              simp [validateAll, hv, hrest] at h
              obtain ⟨hlen, helts⟩ := ih gs hrest
              subst h
              refine ⟨by simp [hlen], ?_⟩
              intro i hi
              cases i with
              | zero => simpa using hv
              | succ j =>
                  simp only [List.getD_cons_succ]
                  exact helts j (by simpa using hi)

/-- Under a well-formed forest, formatting every zipped
prediction/probability pair succeeds, one result per validated record,
in order. -/
theorem formatAll_ok (m : RandomForestClassifier) (hm : m.wf = true)
    (fs : List IrisFeatures) :
    ∃ results,
      Serve.formatAll (fs.map (fun f => (m.predictRow f.toRow, m.probaRow f.toRow))) =
        some results ∧
      results.length = fs.length ∧
      ∀ i, i < fs.length →
        format_prediction_response (m.predictRow ((fs.getD i dummyFeatures).toRow))
            (m.probaRow ((fs.getD i dummyFeatures).toRow)) CLASS_NAMES =
          some (results.getD i dummyResponse) := by
  induction fs with
  | nil => exact ⟨[], rfl, rfl, fun i hi => absurd hi (by simp)⟩
  | cons f fs ih =>
      obtain ⟨r, hr, _⟩ := format_total (m.predictRow f.toRow) (m.probaRow f.toRow)
        (predictRow_lt_three m f.toRow hm) (forest_probaRow_length m f.toRow hm)
      obtain ⟨rs, hrs, hlen, helts⟩ := ih
      refine ⟨r :: rs, ?_, by simp [hlen], ?_⟩
      · simp [Serve.formatAll, hr, hrs]
      · intro i hi
        cases i with
        | zero => simpa using hr
        | succ j =>
            simp only [List.getD_cons_succ]
            exact helts j (by simpa using hi)

/-- C2 counterexample: with a trained artifact loaded, the empty batch
is answered 500 — the handler builds `np.array([])`, a 1-D array with 0
samples, which sklearn's input validation rejects inside the try block —
not 200 with an empty list as claimed. -/
theorem predict_batch_empty_answers_500 :
    Serve.predict_batch testState ([] : List RawFeatures) = .failure 500 ∧
    Serve.predict_batch testState ([] : List RawFeatures) ≠
      .ok ([] : List PredictionResponse) := by
  constructor <;>
    simp [Serve.predict_batch, validateAll, testState, testClassifier,
      IrisClassifier.predict, IrisClassifier.predict_proba]

/-- C2 (amended).  With a trained artifact loaded, every nonempty batch
of valid feature records yields one result per input in input order —
the i-th output is exactly what the single-predict endpoint answers for
the i-th input — while the empty batch is answered 500, because the
handler's empty numpy array fails the model's input validation inside
the try block. -/
theorem predict_batch_order_preserving (st : ServerState) (m : IrisClassifier)
    (raws : List RawFeatures) (fs : List IrisFeatures)
    (hm : st.model = some m) (ht : m.is_trained = true) (hw : m.model.wf = true)
    (hv : validateAll raws = some fs) (hne : raws ≠ []) :
    (∃ results, Serve.predict_batch st raws = .ok results ∧
        results.length = raws.length ∧
        ∀ i, i < raws.length →
          Serve.predict st (raws.getD i dummyRaw) = .ok (results.getD i dummyResponse)) ∧
    Serve.predict_batch st [] = .failure 500 := by
  obtain ⟨hlen, hvi⟩ := validateAll_some raws fs hv
  obtain ⟨results, hfmt, hrlen, hri⟩ := formatAll_ok m.model hw fs
  have hfs : fs ≠ [] := by
    intro h
    subst h
    exact hne (List.length_eq_zero.mp hlen.symm)
  have hX : fs.map IrisFeatures.toRow ≠ [] := by
    simpa using hfs
  have h1 : m.predict (fs.map IrisFeatures.toRow) =
      .ok ((fs.map IrisFeatures.toRow).map m.model.predictRow) := by
    simp [IrisClassifier.predict, ht, hX]
  have h2 : m.predict_proba (fs.map IrisFeatures.toRow) =
      .ok ((fs.map IrisFeatures.toRow).map m.model.probaRow) := by
    simp [IrisClassifier.predict_proba, ht, hX]
  constructor
  · refine ⟨results, ?_, by rw [hrlen, hlen], ?_⟩
    · simp only [Serve.predict_batch, hv, hm, h1, h2, List.map_map, List.zip_map']
      rw [show ((fun x => m.model.predictRow x) ∘ IrisFeatures.toRow) =
            (fun f : IrisFeatures => m.model.predictRow f.toRow) from rfl,
          show ((fun x => m.model.probaRow x) ∘ IrisFeatures.toRow) =
            (fun f : IrisFeatures => m.model.probaRow f.toRow) from rfl]
      rw [show (fun a : IrisFeatures =>
            (m.model.predictRow a.toRow, m.model.probaRow a.toRow)) =
          (fun f : IrisFeatures => (m.model.predictRow f.toRow, m.model.probaRow f.toRow))
          from rfl]
      rw [hfmt]
    · intro i hi
      have hfi := hri i (by rwa [hlen])
      have hone : m.predict [(fs.getD i dummyFeatures).toRow] =
          .ok [m.model.predictRow (fs.getD i dummyFeatures).toRow] := by
        simp [IrisClassifier.predict, ht]
      have hone2 : m.predict_proba [(fs.getD i dummyFeatures).toRow] =
          .ok [m.model.probaRow (fs.getD i dummyFeatures).toRow] := by
        simp [IrisClassifier.predict_proba, ht]
      simp only [Serve.predict, hvi i hi, hm, hone, hone2]
      simp only [List.getD, List.get?_eq_getElem?] at hfi
      simp [hfi]
  · simp [Serve.predict_batch, validateAll, hm, IrisClassifier.predict,
      IrisClassifier.predict_proba, ht]

/-- Witness for C2: the concrete loaded state, a two-element batch. -/
theorem predict_batch_order_preserving_witness :
    (∃ results, Serve.predict_batch testState [testRaw1, testRaw2] = .ok results ∧
        results.length = [testRaw1, testRaw2].length ∧
        ∀ i, i < [testRaw1, testRaw2].length →
          Serve.predict testState ([testRaw1, testRaw2].getD i dummyRaw) =
            .ok (results.getD i dummyResponse)) ∧
    Serve.predict_batch testState [] = .failure 500 :=
  predict_batch_order_preserving testState testClassifier [testRaw1, testRaw2]
    [testFeatures1, testFeatures2] rfl rfl testForest_wf
    (by norm_num [validateAll, validateFeatures, testRaw1, testRaw2,
      testFeatures1, testFeatures2])
    (by simp)

/-- Every reply of the single-predict handler carries one of the four
statuses 200, 422, 503, 500. -/
theorem predict_status_mem (st : ServerState) (raw : RawFeatures) :
    (Serve.predict st raw).statusOf ∈ ([200, 422, 503, 500] : List Nat) := by
  rcases hv : validateFeatures raw with _ | f
  · simp [Serve.predict, hv, Reply.statusOf]
  · rcases hm : st.model with _ | m
    · simp [Serve.predict, hv, hm, Reply.statusOf]
    · cases hb : m.is_trained with
      | false =>
          simp [Serve.predict, hv, hm, IrisClassifier.predict,
            IrisClassifier.predict_proba, hb, Reply.statusOf]
      | true =>
          rcases hf : format_prediction_response (m.model.predictRow f.toRow)
              (m.model.probaRow f.toRow) CLASS_NAMES with _ | r <;>
            simp [Serve.predict, hv, hm, IrisClassifier.predict,
              IrisClassifier.predict_proba, hb, hf, Reply.statusOf]

/-- Every reply of the batch handler carries one of the four statuses
200, 422, 503, 500. -/
theorem predict_batch_status_mem (st : ServerState) (raws : List RawFeatures) :
    (Serve.predict_batch st raws).statusOf ∈ ([200, 422, 503, 500] : List Nat) := by
  rcases hv : validateAll raws with _ | fs
  · simp [Serve.predict_batch, hv, Reply.statusOf]
  · rcases hm : st.model with _ | m
    · simp [Serve.predict_batch, hv, hm, Reply.statusOf]
    · cases hb : m.is_trained with
      | false =>
          simp [Serve.predict_batch, hv, hm, IrisClassifier.predict,
            IrisClassifier.predict_proba, hb, Reply.statusOf]
      | true =>
          rcases fs with _ | ⟨f0, fs'⟩
          · simp [Serve.predict_batch, hv, hm, IrisClassifier.predict,
              IrisClassifier.predict_proba, hb, Reply.statusOf]
          · have h1 : m.predict ((f0 :: fs').map IrisFeatures.toRow) =
                .ok (((f0 :: fs').map IrisFeatures.toRow).map m.model.predictRow) := by
              simp [IrisClassifier.predict, hb]
            have h2 : m.predict_proba ((f0 :: fs').map IrisFeatures.toRow) =
                .ok (((f0 :: fs').map IrisFeatures.toRow).map m.model.probaRow) := by
              simp [IrisClassifier.predict_proba, hb]
            rcases hfa : Serve.formatAll
                ((((f0 :: fs').map IrisFeatures.toRow).map m.model.predictRow).zip
                  (((f0 :: fs').map IrisFeatures.toRow).map m.model.probaRow)) with _ | results <;>
              simp only [Serve.predict_batch, hv, hm, h1, h2, hfa, Reply.statusOf] <;>
              simp

/-- C4.  For both endpoints: an invalid body (a field missing or
negative — exactly the condition under which validation fails) is
answered 422 before any inference; a valid body with no artifact loaded
is answered 503; an inference failure (here: the loaded artifact raises
the untrained error) is answered 500; and every reply carries one of
the statuses 200, 422, 503, 500 — nothing propagates raw. -/
theorem endpoint_status_codes (st : ServerState) (raw : RawFeatures)
    (raws : List RawFeatures) (m : IrisClassifier) :
    (validateFeatures raw = none → Serve.predict st raw = .failure 422) ∧
    (validateAll raws = none → Serve.predict_batch st raws = .failure 422) ∧
    (validateFeatures raw ≠ none → st.model = none → Serve.predict st raw = .failure 503) ∧
    (validateAll raws ≠ none → st.model = none → Serve.predict_batch st raws = .failure 503) ∧
    (validateFeatures raw = none ↔
      (raw.sepal_length = none ∨ raw.sepal_width = none ∨ raw.petal_length = none ∨
        raw.petal_width = none ∨
        (∃ q, raw.sepal_length = some q ∧ q < 0) ∨
        (∃ q, raw.sepal_width = some q ∧ q < 0) ∨
        (∃ q, raw.petal_length = some q ∧ q < 0) ∨
        (∃ q, raw.petal_width = some q ∧ q < 0))) ∧
    (st.model = some m → m.is_trained = false → validateFeatures raw ≠ none →
      Serve.predict st raw = .failure 500) ∧
    (st.model = some m → m.is_trained = false → validateAll raws ≠ none →
      Serve.predict_batch st raws = .failure 500) ∧
    ((Serve.predict st raw).statusOf ∈ ([200, 422, 503, 500] : List Nat)) ∧
    ((Serve.predict_batch st raws).statusOf ∈ ([200, 422, 503, 500] : List Nat)) := by
  refine ⟨?_, ?_, ?_, ?_, ?_, ?_, ?_, predict_status_mem st raw,
    predict_batch_status_mem st raws⟩
  · intro h
    simp [Serve.predict, h]
  · intro h
    simp [Serve.predict_batch, h]
  · intro h hm
    obtain ⟨f, hf⟩ := Option.ne_none_iff_exists'.mp h
    simp [Serve.predict, hf, hm]
  · intro h hm
    obtain ⟨fs, hfs⟩ := Option.ne_none_iff_exists'.mp h
    simp [Serve.predict_batch, hfs, hm]
  · obtain ⟨sl, sw, pl, pw⟩ := raw
    cases sl <;> cases sw <;> cases pl <;> cases pw <;>
      simp [validateFeatures, not_and_or, not_le]
    rename_i a b c d
    constructor
    · intro h
      rcases lt_or_le a 0 with ha | ha
      · exact Or.inl ha
      rcases lt_or_le b 0 with hb | hb
      · exact Or.inr (Or.inl hb)
      rcases lt_or_le c 0 with hc | hc
      · exact Or.inr (Or.inr (Or.inl hc))
      exact Or.inr (Or.inr (Or.inr (h ha hb hc)))
    · intro h h1 h2 h3
      rcases h with ha | hb | hc | hd
      · exact absurd h1 (not_le.mpr ha)
      · exact absurd h2 (not_le.mpr hb)
      · exact absurd h3 (not_le.mpr hc)
      · exact hd
  · intro hm hti h
    obtain ⟨f, hf⟩ := Option.ne_none_iff_exists'.mp h
    simp [Serve.predict, hf, hm, IrisClassifier.predict, IrisClassifier.predict_proba, hti]
  · intro hm hti h
    obtain ⟨fs, hfs⟩ := Option.ne_none_iff_exists'.mp h
    simp [Serve.predict_batch, hfs, hm, IrisClassifier.predict,
      IrisClassifier.predict_proba, hti]

/-- C5.  The training entry point exits 0 exactly when every step
succeeded, otherwise exits 1; and a model file or metrics file exists in
storage only if both the fit and the evaluate step completed (writes
happen only after a successful evaluation); a written metrics file even
implies the whole run succeeded. -/
theorem pipeline_failure_atomicity (env : PipelineEnv) :
    ((train_model env).exitCode = 0 ↔
      (env.outcomes.load_ok = true ∧ env.outcomes.fit_ok = true ∧
        env.outcomes.eval_ok = true ∧ env.outcomes.save_model_ok = true ∧
        env.outcomes.save_metrics_ok = true)) ∧
    ((train_model env).exitCode = 0 ∨ (train_model env).exitCode = 1) ∧
    (((train_model env).storage.modelFile ≠ none ∨
        (train_model env).storage.metricsWritten = true) →
      env.outcomes.fit_ok = true ∧ env.outcomes.eval_ok = true) ∧
    ((train_model env).storage.metricsWritten = true → (train_model env).exitCode = 0) := by
  obtain ⟨⟨l, f, e, sm, sme⟩, fitted⟩ := env
  cases l <;> cases f <;> cases e <;> cases sm <;> cases sme <;>
    simp [train_model, IrisClassifier.save, IrisClassifier.train, IrisClassifier.init]

/-- C6.  When the startup load fails — file missing or decode error —
the process continues with no artifact installed (the handler returns
normally), and the health endpoint then reports `model_loaded: false`
with an unhealthy status. -/
theorem startup_load_failure_degrades (disk : DiskFile) (path : String)
    (h : disk = .missing ∨ disk = .corrupt) :
    (Serve.load_model disk).model = none ∧
    (Serve.health (Serve.load_model disk) path).model_loaded = false ∧
    (Serve.health (Serve.load_model disk) path).status = ("unhealthy") := by
  rcases h with rfl | rfl <;>
    simp [Serve.load_model, IrisClassifier.load, Serve.health]

/-- Witness for C6 at the concrete missing-file disk state. -/
theorem startup_load_failure_degrades_witness :
    (DiskFile.missing = DiskFile.missing ∨ DiskFile.missing = DiskFile.corrupt) ∧
    ((Serve.load_model .missing).model = none ∧
      (Serve.health (Serve.load_model .missing) ("p")).model_loaded = false ∧
      (Serve.health (Serve.load_model .missing) ("p")).status = ("unhealthy")) :=
  ⟨Or.inl rfl, startup_load_failure_degrades .missing ("p") (Or.inl rfl)⟩

/-- Every request handler returns the process state unchanged. -/
theorem handleRequest_fst (st : ServerState) (q : Serve.Request) :
    (Serve.handleRequest st q).1 = st := by
  cases q <;> rfl

/-- C9.  The process-wide model reference is written at most once,
during startup: after any sequence of requests the state equals the
post-startup state, and the post-startup reference is `None` (failed
load) or exactly the loaded artifact. -/
theorem model_reference_immutable (disk : DiskFile) (qs : List Serve.Request) :
    Serve.run disk qs = Serve.load_model disk ∧
    ((Serve.load_model disk).model = none ∨
      ∃ c, disk = DiskFile.artifact c ∧ (Serve.load_model disk).model = some c) := by
  constructor
  · have aux : ∀ (st : ServerState) (rs : List Serve.Request),
        rs.foldl (fun s q => (Serve.handleRequest s q).1) st = st := by
      intro st rs
      induction rs generalizing st with
      | nil => rfl
      | cons q rs ih =>
          rw [List.foldl_cons, handleRequest_fst]
          exact ih st
    exact aux _ qs
  · cases disk with
    | missing => exact Or.inl (by simp [Serve.load_model])
    | corrupt => exact Or.inl (by simp [Serve.load_model, IrisClassifier.load])
    | artifact c => exact Or.inr ⟨c, rfl, by simp [Serve.load_model, IrisClassifier.load]⟩

end Iris
